import Mathlib

/-!
Shallow embedding of the SlotStormLottery reward/draw engine
(src/src/services/slot-storm-lottery.ts, reward-system revision) together
with the post-confirmation prize-pool deduction performed by the
distribution service (src/unnamed/part_005, distributeReward).

Monetary amounts (SOL) are modelled as rationals, timestamps as naturals,
and the random inputs consumed by draws (the three slot symbols and the
uniform point used by the weighted winner selection) are passed explicitly
as arguments.
-/

namespace SlotStorm

/-- The twelve slot symbols (🍎 🍊 🍇 🍒 / 💎 ⭐ 🔥 ⚡ / 👑 🏆 💰 🎰). -/
inductive Sym where
  | apple | orange | grapes | cherry
  | diamond | star | fire | bolt
  | crown | trophy | money | slotMachine
deriving DecidableEq, Fintype, Repr

/-- `this.symbols.common` in the source. -/
def commonSymbols : List Sym := [Sym.apple, Sym.orange, Sym.grapes, Sym.cherry]

/-- `this.symbols.rare` in the source. -/
def rareSymbols : List Sym := [Sym.diamond, Sym.star, Sym.fire, Sym.bolt]

/-- `this.symbols.legendary` in the source. -/
def legendarySymbols : List Sym := [Sym.crown, Sym.trophy, Sym.money, Sym.slotMachine]

/-- The `winType` values of `SlotResult` ('small' | 'medium' | 'large' | 'jackpot' | 'none'). -/
inductive WinType where
  | small | medium | large | jackpot | none
deriving DecidableEq, Repr

/-- `evaluateSlotResult(symbols)`: classifies a three-symbol roll, returning the
win type and the tier multiplier. The reel has exactly three symbols. -/
def evaluateSlotResult (s0 s1 s2 : Sym) : WinType × ℕ :=
  if (s0 = s1 ∧ s1 = s2) ∧ s0 ∈ legendarySymbols then (WinType.jackpot, 50)
  else if s0 = s1 ∧ s1 = s2 then
    if s0 ∈ rareSymbols then (WinType.large, 10) else (WinType.medium, 5)
  else if s0 = s1 ∨ s1 = s2 ∨ s0 = s2 then (WinType.small, 2)
  else if (s0 = Sym.bolt ∨ s1 = Sym.bolt ∨ s2 = Sym.bolt) ∧
          (s0 = Sym.fire ∨ s1 = Sym.fire ∨ s2 = Sym.fire) then (WinType.medium, 8)
  else (WinType.none, 0)

/-- The matching table exactly as the specification words it: an ordered
decision list — three identical legendary symbols, then three identical rare,
then three identical of any other tier, then exactly two identical, then the
bonus pair ⚡ + 🔥 (reached only when no earlier case classified the roll),
otherwise no win. -/
def specSlotTable (s0 s1 s2 : Sym) : WinType × ℕ :=
  if s0 = s1 ∧ s1 = s2 ∧ s0 ∈ legendarySymbols then (WinType.jackpot, 50)
  else if s0 = s1 ∧ s1 = s2 ∧ s0 ∈ rareSymbols then (WinType.large, 10)
  else if s0 = s1 ∧ s1 = s2 then (WinType.medium, 5)
  else if s0 = s1 ∨ s1 = s2 ∨ s0 = s2 then (WinType.small, 2)
  else if Sym.bolt ∈ [s0, s1, s2] ∧ Sym.fire ∈ [s0, s1, s2] then (WinType.medium, 8)
  else (WinType.none, 0)

/-- Reward status: 'pending' | 'confirmed' | 'failed'. -/
inductive RewardStatus where
  | pending | confirmed | failed
deriving DecidableEq, Repr

/-- Reward win type: 'slot' | 'lightning'. -/
inductive RewardKind where
  | slot | lightning
deriving DecidableEq, Repr

/-- The `PendingReward` record of the source. -/
structure PendingReward where
  winner : String
  amount : ℚ
  winType : RewardKind
  txHash : Option String
  timestamp : ℕ
  status : RewardStatus
deriving DecidableEq, Repr

/-- The reward id derived in the source as the template string
`timestamp-winner.slice(0, 8)`, modelled as the pair of its two components. -/
def rewardId (r : PendingReward) : ℕ × String :=
  (r.timestamp, r.winner.take 8)

/-- The `Holder` record of the source (`holdDuration` is carried but unused by
the ticket computation in this revision). -/
structure Holder where
  wallet : String
  balance : ℚ
  holdDuration : ℚ
  tickets : ℤ
deriving DecidableEq, Repr

/-- Weather kinds reachable through `changeWeather` ('sunny' | 'rainy' | 'storm'). -/
inductive WeatherKind where
  | sunny | rainy | storm
deriving DecidableEq, Repr

/-- The `WeatherEvent` record of the source. -/
structure WeatherEvent where
  kind : WeatherKind
  multiplier : ℚ
  duration : ℕ
  startTime : ℕ
deriving DecidableEq, Repr

/-- The `weatherConfig` multiplier table of `changeWeather`. -/
def weatherMultiplierOf : WeatherKind → ℚ
  | WeatherKind.sunny => 1
  | WeatherKind.rainy => 3 / 2
  | WeatherKind.storm => 3

/-- The `weatherConfig` duration table of `changeWeather` (milliseconds). -/
def weatherDurationOf : WeatherKind → ℕ
  | WeatherKind.sunny => 600000
  | WeatherKind.rainy => 480000
  | WeatherKind.storm => 180000

/-- The mutable fields of a `SlotStormLottery` instance. -/
structure LotteryState where
  holders : List Holder
  currentWeather : WeatherEvent
  prizePool : ℚ
  estimatedPrizePool : ℚ
  actualClaimedAmount : ℚ
  isRunning : Bool
  canStartNewRound : Bool
  hasNewCreatorFees : Bool
  pendingRewards : List PendingReward
deriving DecidableEq, Repr

/-- The constructor-time state: sunny weather ×1, empty pools and ledger,
`canStartNewRound = true`. -/
def initialState : LotteryState :=
  { holders := []
    currentWeather := { kind := WeatherKind.sunny, multiplier := 1, duration := 300000, startTime := 0 }
    prizePool := 0
    estimatedPrizePool := 0
    actualClaimedAmount := 0
    isRunning := false
    canStartNewRound := true
    hasNewCreatorFees := false
    pendingRewards := [] }

/-- `changeWeather`, with the randomly selected kind passed explicitly. -/
def changeWeather (st : LotteryState) (k : WeatherKind) (now : ℕ) : LotteryState :=
  { st with currentWeather :=
      { kind := k, multiplier := weatherMultiplierOf k
        duration := weatherDurationOf k, startTime := now } }

/-- `updateHolders(holders)`: replaces the holder set wholesale, recomputing
each ticket count as `Math.max(1, Math.floor(holder.balance / 1000))`. -/
def updateHolders (st : LotteryState) (hs : List Holder) : LotteryState :=
  { st with holders := hs.map (fun h => { h with tickets := max 1 ⌊h.balance / 1000⌋ }) }

/-- `addToPrizePool(amount)`. -/
def addToPrizePool (st : LotteryState) (amount : ℚ) : LotteryState :=
  { st with prizePool := st.prizePool + amount }

/-- `setActualClaimedAmount(amount)`: installs the freshly claimed amount as
the pool and raises the fresh-fees flag. -/
def setActualClaimedAmount (st : LotteryState) (amount : ℚ) : LotteryState :=
  { st with actualClaimedAmount := amount, prizePool := amount, hasNewCreatorFees := true }

/-- `resetPrizePool()`. -/
def resetPrizePool (st : LotteryState) : LotteryState :=
  { st with actualClaimedAmount := 0, prizePool := 0, hasNewCreatorFees := false }

/-- `checkPendingRewards()`: recomputes the round gate from the counts of
pending and failed rewards. -/
def checkPendingRewards (st : LotteryState) : LotteryState :=
  let pendingCount := (st.pendingRewards.filter
      (fun r => decide (r.status = RewardStatus.pending))).length
  let failedCount := (st.pendingRewards.filter
      (fun r => decide (r.status = RewardStatus.failed))).length
  if pendingCount > 0 ∨ failedCount > 0 then { st with canStartNewRound := false }
  else { st with canStartNewRound := true }

/-- `createPendingReward(winner, amount, winType)`: appends a pending reward
and blocks new rounds. -/
def createPendingReward (st : LotteryState) (w : String) (amount : ℚ)
    (k : RewardKind) (now : ℕ) : LotteryState :=
  let reward : PendingReward :=
    { winner := w, amount := amount, winType := k
      txHash := Option.none, timestamp := now, status := RewardStatus.pending }
  { st with pendingRewards := st.pendingRewards ++ [reward], canStartNewRound := false }

/-- Updates the first list element satisfying `p` by `f`; `Option.none` when no
element matches — the shape of `Array.prototype.find` followed by an in-place
status mutation. -/
def updateFirst (rs : List PendingReward) (p : PendingReward → Bool)
    (f : PendingReward → PendingReward) : Option (List PendingReward) :=
  match rs with
  | [] => Option.none
  | r :: rest =>
    if p r then Option.some (f r :: rest)
    else
      match updateFirst rest p f with
      | Option.none => Option.none
      | Option.some rest2 => Option.some (r :: rest2)

/-- `confirmRewardTransaction(rewardId, txHash)`: finds the first reward whose
derived id matches and whose status is pending, marks it confirmed with the
transaction hash, and recomputes the gate; returns false otherwise. -/
def confirmRewardTransaction (st : LotteryState) (id : ℕ × String)
    (tx : String) : Bool × LotteryState :=
  match updateFirst st.pendingRewards
      (fun r => decide (rewardId r = id ∧ r.status = RewardStatus.pending))
      (fun r => { r with status := RewardStatus.confirmed, txHash := Option.some tx }) with
  | Option.none => (false, st)
  | Option.some rs => (true, checkPendingRewards { st with pendingRewards := rs })

/-- `failRewardTransaction(rewardId, error)`: marks the first matching pending
reward failed and blocks new rounds; returns false otherwise. -/
def failRewardTransaction (st : LotteryState) (id : ℕ × String)
    (_err : String) : Bool × LotteryState :=
  match updateFirst st.pendingRewards
      (fun r => decide (rewardId r = id ∧ r.status = RewardStatus.pending))
      (fun r => { r with status := RewardStatus.failed }) with
  | Option.none => (false, st)
  | Option.some rs => (true, { st with pendingRewards := rs, canStartNewRound := false })

/-- `retryFailedReward(rewardId)`: moves the first matching failed reward back
to pending; the gate is left untouched. -/
def retryFailedReward (st : LotteryState) (id : ℕ × String) : Bool × LotteryState :=
  match updateFirst st.pendingRewards
      (fun r => decide (rewardId r = id ∧ r.status = RewardStatus.failed))
      (fun r => { r with status := RewardStatus.pending }) with
  | Option.none => (false, st)
  | Option.some rs => (true, { st with pendingRewards := rs })

/-- `start()`: a no-op when already running, otherwise raises `isRunning` and
re-derives the gate via `checkPendingRewards` (timer wiring elided). -/
def start (st : LotteryState) : LotteryState :=
  if st.isRunning then st
  else checkPendingRewards { st with isRunning := true }

/-- Total ticket count over the holder map, as summed by `selectWeightedWinner`. -/
def totalTickets (hs : List Holder) : ℤ :=
  (hs.map (fun h => h.tickets)).sum

/-- The subtraction loop of `selectWeightedWinner`: walk the holders in map
order, decrementing the random point by each ticket count, returning the first
wallet at which the running value drops to `≤ 0`. -/
def selectLoop (r : ℚ) : List Holder → Option String
  | [] => Option.none
  | h :: rest =>
    if r - (h.tickets : ℚ) ≤ 0 then Option.some h.wallet
    else selectLoop (r - (h.tickets : ℚ)) rest

/-- `selectWeightedWinner()`, with the uniform random point `r` of
`Math.random() * totalTickets` passed explicitly. -/
def selectWeightedWinner (hs : List Holder) (r : ℚ) : Option String :=
  if totalTickets hs = 0 then Option.none else selectLoop r hs

/-- `calculatePrize(winType, multiplier)`: base `min(pool * 0.1, 1)`, then the
winType-keyed `prizeMultiplier` switch, the tier multiplier argument, and the
current weather multiplier. -/
def calculatePrize (pool weatherMult : ℚ) (ty : WinType) (multiplier : ℚ) : ℚ :=
  let baseAmount := min (pool * (1 / 10)) 1
  let prizeMultiplier : ℚ :=
    match ty with
    | WinType.small => 1 / 2
    | WinType.medium => 1
    | WinType.large => 3
    | WinType.jackpot => 10
    | WinType.none => 1
  baseAmount * prizeMultiplier * multiplier * weatherMult

/-- `spinSlots()` (reward-system revision), with the generated symbols and the
winner-selection random point passed explicitly. Guards: no holders; stale
fees (`!hasNewCreatorFees && prizePool > 0`); empty pool. On a classified win
with a selected winner and a positive prize it opens a pending reward; in every
case that reaches evaluation it then clears `hasNewCreatorFees`, zeroes the
pool and the claimed-amount tracker. -/
def spinSlots (st : LotteryState) (s0 s1 s2 : Sym) (r : ℚ) (now : ℕ) : LotteryState :=
  if st.holders = [] then st
  else if st.hasNewCreatorFees = false ∧ st.prizePool > 0 then st
  else if st.prizePool ≤ 0 then st
  else
    let wr := evaluateSlotResult s0 s1 s2
    let winner : Option String :=
      if wr.1 ≠ WinType.none then selectWeightedWinner st.holders r else Option.none
    let prize : ℚ :=
      if wr.1 ≠ WinType.none then
        calculatePrize st.prizePool st.currentWeather.multiplier wr.1 (wr.2 : ℚ)
      else 0
    let st1 :=
      match winner with
      | Option.some w =>
        if prize > 0 then createPendingReward st w prize RewardKind.slot now else st
      | Option.none => st
    { st1 with hasNewCreatorFees := false, prizePool := 0, actualClaimedAmount := 0 }

/-- `lightningStrike()`, with the winner-selection random point passed
explicitly. Guards: no holders; blocked round gate; stale fees; empty pool; no
selectable winner; prize below the 0.01 minimum. The prize is
`min(pool * 0.05, 0.5)`, computed without any tier or weather factor. -/
def lightningStrike (st : LotteryState) (r : ℚ) (now : ℕ) : LotteryState :=
  if st.holders = [] then st
  else if st.canStartNewRound = false then st
  else if st.hasNewCreatorFees = false ∧ st.prizePool > 0 then st
  else if st.prizePool ≤ 0 then st
  else
    match selectWeightedWinner st.holders r with
    | Option.none => st
    | Option.some w =>
      let prize := min (st.prizePool * (1 / 20)) (1 / 2)
      if prize < 1 / 100 then st
      else
        let st1 := createPendingReward st w prize RewardKind.lightning now
        { st1 with hasNewCreatorFees := false, prizePool := 0, actualClaimedAmount := 0 }

/-- The success path of `distributeReward` in the distribution service
(src/unnamed/part_005): after the on-chain transfer confirms it calls
`confirmRewardTransaction(rewardId, signature)` and then
`addToPrizePool(-reward.amount)`. -/
def distributeRewardSuccess (st : LotteryState) (reward : PendingReward)
    (sig : String) : LotteryState :=
  let st1 := (confirmRewardTransaction st (rewardId reward) sig).2
  addToPrizePool st1 (-reward.amount)

/-- The RewardLedger operations named by the round-gate claim, as an explicit
alphabet so that arbitrary operation sequences can be folded over a state. -/
inductive LedgerOp where
  | create (w : String) (amount : ℚ) (k : RewardKind) (now : ℕ)
  | confirm (id : ℕ × String) (tx : String)
  | fail (id : ℕ × String) (err : String)
  | retry (id : ℕ × String)
  | check
  | start

/-- Interpretation of one ledger operation. -/
def runOp (st : LotteryState) : LedgerOp → LotteryState
  | LedgerOp.create w amount k now => createPendingReward st w amount k now
  | LedgerOp.confirm id tx => (confirmRewardTransaction st id tx).2
  | LedgerOp.fail id err => (failRewardTransaction st id err).2
  | LedgerOp.retry id => (retryFailedReward st id).2
  | LedgerOp.check => checkPendingRewards st
  | LedgerOp.start => start st

/-- Interpretation of a sequence of ledger operations. -/
def runOps (st : LotteryState) (ops : List LedgerOp) : LotteryState :=
  ops.foldl runOp st

/-- A reward is blocking when its status is pending or failed. -/
def blocking (r : PendingReward) : Prop :=
  r.status = RewardStatus.pending ∨ r.status = RewardStatus.failed

/-- The round-gate consistency predicate: `canStartNewRound` is true exactly
when no ledger entry is pending or failed. -/
def gateConsistent (st : LotteryState) : Prop :=
  st.canStartNewRound = true ↔ ∀ r ∈ st.pendingRewards, ¬blocking r

/-- The winType-keyed `prizeMultiplier` switch of `calculatePrize`, written as
a standalone table so the prize formula can be stated in closed form. -/
def prizeMultiplierOf : WinType → ℚ
  | WinType.small => 1 / 2
  | WinType.medium => 1
  | WinType.large => 3
  | WinType.jackpot => 10
  | WinType.none => 1

/-- A single 5000-token holder used for concrete scenario evaluations. -/
def daveHolder : Holder :=
  { wallet := "dave", balance := 5000, holdDuration := 0, tickets := 0 }

/-- Funded state for the negative-pool scenario: a 0.4 SOL claim is recorded
and the holder set installed. -/
def c3State0 : LotteryState :=
  updateHolders (setActualClaimedAmount initialState (2 / 5)) [daveHolder]

/-- State after a lightning strike consumes the 0.4 SOL batch: one pending
reward of 0.02 SOL, pool zeroed. -/
def c3State1 : LotteryState := lightningStrike c3State0 (1 / 2) 100

/-- The pending reward opened by the strike in `c3State1`. -/
def c3Reward : PendingReward :=
  { winner := "dave", amount := 1 / 50, winType := RewardKind.lightning
    txHash := Option.none, timestamp := 100, status := RewardStatus.pending }

/-- Funded state with one holder and a 1 SOL pool, used to evaluate a NoWin
scheduled draw. -/
def c4State : LotteryState :=
  updateHolders (setActualClaimedAmount initialState 1) [daveHolder]

/-- The funded one-holder state under sunny weather (multiplier 1). -/
def c7SunnyState : LotteryState :=
  updateHolders (setActualClaimedAmount initialState 1) [daveHolder]

/-- The same state after the weather switches to storm (multiplier 3). -/
def c7StormState : LotteryState := changeWeather c7SunnyState WeatherKind.storm 0

/-- Two-holder map (5 and 1 tickets) for the winner-selection witness. -/
def c8DemoHolders : List Holder :=
  [{ wallet := "alice", balance := 5000, holdDuration := 0, tickets := 5 },
   { wallet := "bob", balance := 1000, holdDuration := 0, tickets := 1 }]

/-- Raw holder snapshot handed to `updateHolders` for the ticket witness (the
incoming `tickets` field is ignored and recomputed). -/
def c9DemoList : List Holder :=
  [{ wallet := "carol", balance := 5000, holdDuration := 0, tickets := 99 }]

/-- A ledger whose only entry is already confirmed, for the idempotence
witness. -/
def c10State : LotteryState :=
  { initialState with
      pendingRewards :=
        [{ winner := "alicewallet9", amount := 1 / 4, winType := RewardKind.slot
           txHash := Option.some "tx0", timestamp := 42, status := RewardStatus.confirmed }] }

/-- One-holder state with a stale pool: 5 SOL were added to the pool without a
confirmed claim, so `hasNewCreatorFees` is still false while the pool is 5. -/
def c2StaleState : LotteryState :=
  addToPrizePool (updateHolders initialState [daveHolder]) 5

theorem filterStatus_pos_iff (l : List PendingReward) (s : RewardStatus) :
    0 < (l.filter (fun r => decide (r.status = s))).length ↔ ∃ r ∈ l, r.status = s := by
  simp [List.length_pos]

theorem checkPendingRewards_gateConsistent (st : LotteryState) :
    gateConsistent (checkPendingRewards st) := by
  unfold gateConsistent checkPendingRewards
  dsimp only
  split
  · rename_i hcond
    simp only [gt_iff_lt, filterStatus_pos_iff] at hcond
    simp only [Bool.false_eq_true, false_iff, not_forall]
    rcases hcond with ⟨r, hr, hs⟩ | ⟨r, hr, hs⟩
    · exact ⟨r, hr, by simp [blocking, hs]⟩
    · exact ⟨r, hr, by simp [blocking, hs]⟩
  · rename_i hcond
    simp only [gt_iff_lt, filterStatus_pos_iff, not_or, not_exists, not_and] at hcond
    simp only [true_iff]
    intro r hr hb
    rcases hb with hs | hs
    · exact hcond.1 r hr hs
    · exact hcond.2 r hr hs

theorem updateFirst_eq_none {rs : List PendingReward} {p : PendingReward → Bool}
    {f : PendingReward → PendingReward} (h : ∀ r ∈ rs, p r = false) :
    updateFirst rs p f = Option.none := by
  induction rs with
  | nil => rfl
  | cons r rest ih =>
    have h1 : p r = false := h r (List.mem_cons_self r rest)
    have h2 : updateFirst rest p f = Option.none :=
      ih (fun x hx => h x (List.mem_cons_of_mem r hx))
    simp [updateFirst, h1, h2]

theorem updateFirst_eq_some {rs : List PendingReward} {p : PendingReward → Bool}
    {f : PendingReward → PendingReward} {rs' : List PendingReward}
    (h : updateFirst rs p f = Option.some rs') :
    ∃ r ∈ rs, p r = true ∧ f r ∈ rs' := by
  induction rs generalizing rs' with
  | nil => simp [updateFirst] at h
  | cons r rest ih =>
    by_cases hp : p r
    · simp only [updateFirst, hp, if_true, Option.some.injEq] at h
      exact ⟨r, List.mem_cons_self r rest, hp, by simp [← h]⟩
    · simp only [updateFirst, hp, if_false, Bool.false_eq_true] at h
      cases hrest : updateFirst rest p f with
      | none => rw [hrest] at h; simp at h
      | some rest2 =>
        rw [hrest] at h
        simp only [Option.some.injEq] at h
        obtain ⟨x, hx, hpx, hfx⟩ := ih hrest
        exact ⟨x, List.mem_cons_of_mem r hx, hpx, by simp [← h, hfx]⟩

theorem createPendingReward_gateConsistent (st : LotteryState) (w : String)
    (amount : ℚ) (k : RewardKind) (now : ℕ) :
    gateConsistent (createPendingReward st w amount k now) := by
  unfold gateConsistent createPendingReward
  dsimp only
  simp only [Bool.false_eq_true, false_iff, not_forall]
  refine ⟨{ winner := w, amount := amount, winType := k, txHash := Option.none,
            timestamp := now, status := RewardStatus.pending }, by simp, ?_⟩
  simp [blocking]

theorem confirmRewardTransaction_gateConsistent (st : LotteryState)
    (id : ℕ × String) (tx : String) (h : gateConsistent st) :
    gateConsistent (confirmRewardTransaction st id tx).2 := by
  unfold confirmRewardTransaction
  cases hu : updateFirst st.pendingRewards
      (fun r => decide (rewardId r = id ∧ r.status = RewardStatus.pending))
      (fun r => { r with status := RewardStatus.confirmed, txHash := Option.some tx }) with
  | none => exact h
  | some rs => exact checkPendingRewards_gateConsistent _

theorem failRewardTransaction_gateConsistent (st : LotteryState)
    (id : ℕ × String) (err : String) (h : gateConsistent st) :
    gateConsistent (failRewardTransaction st id err).2 := by
  unfold failRewardTransaction
  cases hu : updateFirst st.pendingRewards
      (fun r => decide (rewardId r = id ∧ r.status = RewardStatus.pending))
      (fun r => { r with status := RewardStatus.failed }) with
  | none => exact h
  | some rs =>
    obtain ⟨r, hr, hpr, hfr⟩ := updateFirst_eq_some hu
    unfold gateConsistent
    simp only [Bool.false_eq_true, false_iff, not_forall]
    exact ⟨_, hfr, by simp [blocking]⟩

theorem retryFailedReward_gateConsistent (st : LotteryState)
    (id : ℕ × String) (h : gateConsistent st) :
    gateConsistent (retryFailedReward st id).2 := by
  unfold retryFailedReward
  cases hu : updateFirst st.pendingRewards
      (fun r => decide (rewardId r = id ∧ r.status = RewardStatus.failed))
      (fun r => { r with status := RewardStatus.pending }) with
  | none => exact h
  | some rs =>
    obtain ⟨r, hr, hpr, hfr⟩ := updateFirst_eq_some hu
    simp only [decide_eq_true_eq] at hpr
    have hgate : st.canStartNewRound = false := by
      rcases Bool.eq_false_or_eq_true st.canStartNewRound with hb | hb
      · exact absurd (Or.inr hpr.2) (h.mp hb r hr)
      · exact hb
    unfold gateConsistent
    simp only [hgate, Bool.false_eq_true, false_iff, not_forall]
    exact ⟨_, hfr, by simp [blocking]⟩

theorem start_gateConsistent (st : LotteryState) (h : gateConsistent st) :
    gateConsistent (start st) := by
  unfold start
  split
  · exact h
  · exact checkPendingRewards_gateConsistent _

theorem runOp_gateConsistent (st : LotteryState) (op : LedgerOp)
    (h : gateConsistent st) : gateConsistent (runOp st op) := by
  cases op with
  | create w amount k now => exact createPendingReward_gateConsistent st w amount k now
  | confirm id tx => exact confirmRewardTransaction_gateConsistent st id tx h
  | fail id err => exact failRewardTransaction_gateConsistent st id err h
  | retry id => exact retryFailedReward_gateConsistent st id h
  | check => exact checkPendingRewards_gateConsistent st
  | start => exact start_gateConsistent st h

theorem runOps_gateConsistent (ops : List LedgerOp) (st : LotteryState)
    (h : gateConsistent st) : gateConsistent (runOps st ops) := by
  induction ops generalizing st with
  | nil => exact h
  | cons op rest ih => exact ih _ (runOp_gateConsistent st op h)

theorem initialState_gateConsistent : gateConsistent initialState := by
  unfold gateConsistent initialState
  simp

/-- C1: starting from the empty ledger, after any sequence of RewardLedger
operations (`createPendingReward`, `confirmRewardTransaction`,
`failRewardTransaction`, `retryFailedReward`, `checkPendingRewards`, `start`)
the round gate `canStartNewRound` is true exactly when no ledger entry has
status pending or failed; moreover creating a pending reward in any reachable
state always sets the gate to false. -/
theorem round_gate_invariant (ops : List LedgerOp) :
    ((runOps initialState ops).canStartNewRound = true ↔
      ∀ r ∈ (runOps initialState ops).pendingRewards, ¬blocking r) ∧
    ∀ w amount k now,
      (createPendingReward (runOps initialState ops) w amount k now).canStartNewRound = false :=
  ⟨runOps_gateConsistent ops initialState initialState_gateConsistent,
   fun _ _ _ _ => rfl⟩

theorem spinSlots_stale_eq (st : LotteryState) (s0 s1 s2 : Sym) (r : ℚ) (now : ℕ)
    (h : st.hasNewCreatorFees = false) : spinSlots st s0 s1 s2 r now = st := by
  unfold spinSlots
  split_ifs with h1 h2 h3
  · rfl
  · rfl
  · rfl
  · exact absurd ⟨h, not_le.mp h3⟩ h2

theorem lightningStrike_stale_eq (st : LotteryState) (r : ℚ) (now : ℕ)
    (h : st.hasNewCreatorFees = false) : lightningStrike st r now = st := by
  unfold lightningStrike
  split_ifs with h1 h2 h3 h4
  · rfl
  · rfl
  · rfl
  · rfl
  · exact absurd ⟨h, not_le.mp h4⟩ h3

/-- C2: whenever `hasNewCreatorFees` is false, a scheduled draw and a lightning
strike both create no pending reward and leave the prize pool unchanged, for
every symbol roll, random point, and timestamp — even when the pool is
positive, the draw is silently skipped. -/
theorem stale_funds_skip (st : LotteryState) (s0 s1 s2 : Sym) (r r2 : ℚ) (now now2 : ℕ)
    (h : st.hasNewCreatorFees = false) :
    (spinSlots st s0 s1 s2 r now).pendingRewards = st.pendingRewards ∧
    (spinSlots st s0 s1 s2 r now).prizePool = st.prizePool ∧
    (lightningStrike st r2 now2).pendingRewards = st.pendingRewards ∧
    (lightningStrike st r2 now2).prizePool = st.prizePool := by
  rw [spinSlots_stale_eq st s0 s1 s2 r now h, lightningStrike_stale_eq st r2 now2 h]
  exact ⟨rfl, rfl, rfl, rfl⟩

/-- C2 witness: a state with a stale 5 SOL pool skips a triple-crown scheduled
draw and a lightning strike. -/
theorem stale_funds_skip_witness :
    c2StaleState.hasNewCreatorFees = false ∧ c2StaleState.prizePool = 5 ∧
    (spinSlots c2StaleState Sym.crown Sym.crown Sym.crown (1/2) 7).pendingRewards =
        c2StaleState.pendingRewards ∧
    (spinSlots c2StaleState Sym.crown Sym.crown Sym.crown (1/2) 7).prizePool =
        c2StaleState.prizePool ∧
    (lightningStrike c2StaleState (1/2) 7).pendingRewards = c2StaleState.pendingRewards ∧
    (lightningStrike c2StaleState (1/2) 7).prizePool = c2StaleState.prizePool := by
  refine ⟨rfl, by norm_num [c2StaleState, addToPrizePool, updateHolders, initialState], ?_⟩
  exact stale_funds_skip c2StaleState Sym.crown Sym.crown Sym.crown (1/2) (1/2) 7 7 rfl

/-- C3: the post-confirmation deduction drives the prize pool negative. From a
0.4 SOL claim, a lightning strike opens a 0.02 SOL pending reward and zeroes
the pool; `distributeReward` then confirms the transfer and applies
`addToPrizePool(-amount)`, leaving `prizePool = -0.02 < 0`, violating the
non-negativity invariant the claim states. -/
theorem distribute_deduction_negative_pool :
    c3State1.pendingRewards = [c3Reward] ∧
    c3State1.prizePool = 0 ∧
    (distributeRewardSuccess c3State1 c3Reward "sig1").prizePool = -(1/50) ∧
    (distributeRewardSuccess c3State1 c3Reward "sig1").prizePool < 0 := by
  have hstate : c3State1 =
      { holders := [{ wallet := "dave", balance := 5000, holdDuration := 0, tickets := 5 }]
        currentWeather := { kind := WeatherKind.sunny, multiplier := 1, duration := 300000, startTime := 0 }
        prizePool := 0, estimatedPrizePool := 0, actualClaimedAmount := 0
        isRunning := false, canStartNewRound := false, hasNewCreatorFees := false
        pendingRewards := [c3Reward] } := by
    norm_num [c3State1, c3State0, lightningStrike, updateHolders, setActualClaimedAmount,
      initialState, daveHolder, selectWeightedWinner, totalTickets, selectLoop,
      createPendingReward, c3Reward, min_def]
  rw [hstate]
  have hc1 : RewardStatus.confirmed = RewardStatus.pending ↔ False := by simp
  have hc2 : RewardStatus.confirmed = RewardStatus.failed ↔ False := by simp
  refine ⟨rfl, rfl, ?_, ?_⟩ <;>
    norm_num [distributeRewardSuccess, confirmRewardTransaction, updateFirst, rewardId,
      checkPendingRewards, addToPrizePool, c3Reward, List.filter_cons, List.filter_nil,
      hc1, hc2]

/-- C4 counterexample: a NoWin scheduled evaluation (🍎 🍊 🍇) in a funded
state consumes the fee batch anyway — `hasNewCreatorFees` drops from true to
false and the pool from 1 to 0 with no pending reward created — refuting the
claim that the batch is consumed exactly when a prize > 0 opens a reward. -/
theorem nowin_consumes_fee_batch_counterexample :
    (evaluateSlotResult Sym.apple Sym.orange Sym.grapes).1 = WinType.none ∧
    c4State.hasNewCreatorFees = true ∧ c4State.prizePool = 1 ∧
    (spinSlots c4State Sym.apple Sym.orange Sym.grapes (1/2) 7).hasNewCreatorFees = false ∧
    (spinSlots c4State Sym.apple Sym.orange Sym.grapes (1/2) 7).prizePool = 0 ∧
    (spinSlots c4State Sym.apple Sym.orange Sym.grapes (1/2) 7).pendingRewards =
      c4State.pendingRewards := by
  have he : evaluateSlotResult Sym.apple Sym.orange Sym.grapes = (WinType.none, 0) := by decide
  refine ⟨by decide, rfl, rfl, ?_⟩
  norm_num [spinSlots, c4State, updateHolders, setActualClaimedAmount, initialState,
    he, daveHolder]

/-- C4 (amended): on a NoWin scheduled evaluation that passes the holder,
fresh-fees and pool guards, no pending reward is created and the round gate is
unaffected, but the fee batch IS consumed: `hasNewCreatorFees` is cleared and
the pool zeroed regardless of the outcome. -/
theorem nowin_frame_effects (st : LotteryState) (s0 s1 s2 : Sym) (r : ℚ) (now : ℕ)
    (hh : st.holders ≠ []) (hf : st.hasNewCreatorFees = true) (hp : 0 < st.prizePool)
    (hn : (evaluateSlotResult s0 s1 s2).1 = WinType.none) :
    (spinSlots st s0 s1 s2 r now).pendingRewards = st.pendingRewards ∧
    (spinSlots st s0 s1 s2 r now).canStartNewRound = st.canStartNewRound ∧
    (spinSlots st s0 s1 s2 r now).hasNewCreatorFees = false ∧
    (spinSlots st s0 s1 s2 r now).prizePool = 0 := by
  unfold spinSlots
  split_ifs with h1 h2 h3
  · exact absurd h1 hh
  · rw [hf] at h2; exact absurd h2.1 (by simp)
  · exact absurd h3 (not_le.mpr hp)
  · simp [hn]

/-- C4 witness: the amended frame statement evaluated on the funded one-holder
state with the NoWin roll 🍎 🍊 🍒. -/
theorem nowin_frame_effects_witness :
    (spinSlots c4State Sym.apple Sym.orange Sym.cherry (1/3) 11).pendingRewards =
        c4State.pendingRewards ∧
    (spinSlots c4State Sym.apple Sym.orange Sym.cherry (1/3) 11).canStartNewRound =
        c4State.canStartNewRound ∧
    (spinSlots c4State Sym.apple Sym.orange Sym.cherry (1/3) 11).hasNewCreatorFees = false ∧
    (spinSlots c4State Sym.apple Sym.orange Sym.cherry (1/3) 11).prizePool = 0 :=
  nowin_frame_effects c4State Sym.apple Sym.orange Sym.cherry (1/3) 11
    (by simp [c4State, updateHolders, setActualClaimedAmount, initialState, daveHolder])
    rfl (by norm_num [c4State, updateHolders, setActualClaimedAmount, initialState])
    (by decide)

/-- C5 counterexample: a jackpot at pool 10 and weather 1 pays 500, not the
claimed `min(pool * 0.1, 1) * tierMultiplier * weatherMultiplier = 50` — the
code applies an additional winType factor (10 for jackpot). -/
theorem prize_formula_counterexample :
    calculatePrize 10 1 WinType.jackpot 50 = 500 ∧
    min ((10:ℚ) * (1 / 10)) 1 * 50 * 1 = 50 ∧
    calculatePrize 10 1 WinType.jackpot 50 ≠ min ((10:ℚ) * (1 / 10)) 1 * 50 * 1 := by
  norm_num [calculatePrize]

/-- C5 (amended): a scheduled prize is `min(pool * 0.1, 1)` times the winType
factor (0.5 / 1 / 3 / 10), the tier multiplier, and the weather multiplier; a
lightning draw either skips or opens a reward of exactly
`min(pool * 0.05, 0.5)`, with no tier or weather factor. -/
theorem prize_formula_amended :
    (∀ pool w ty m, calculatePrize pool w ty m =
        min (pool * (1 / 10)) 1 * prizeMultiplierOf ty * m * w) ∧
    (∀ st r now, (lightningStrike st r now).pendingRewards = st.pendingRewards ∨
        ∃ w, (lightningStrike st r now).pendingRewards =
          st.pendingRewards ++
            [{ winner := w, amount := min (st.prizePool * (1 / 20)) (1 / 2)
               winType := RewardKind.lightning, txHash := Option.none
               timestamp := now, status := RewardStatus.pending }]) := by
  constructor
  · intro pool w ty m
    cases ty <;> simp [calculatePrize, prizeMultiplierOf]
  · intro st r now
    unfold lightningStrike
    split_ifs with h1 h2 h3 h4
    · exact Or.inl rfl
    · exact Or.inl rfl
    · exact Or.inl rfl
    · exact Or.inl rfl
    · cases hsel : selectWeightedWinner st.holders r with
      | none => exact Or.inl rfl
      | some w =>
        dsimp only
        by_cases hp : min (st.prizePool * (1 / 20)) (1 / 2) < 1 / 100
        · rw [if_pos hp]
          exact Or.inl rfl
        · rw [if_neg hp]
          exact Or.inr ⟨w, rfl⟩

set_option maxHeartbeats 1000000 in
/-- C6: the code's symbol evaluation agrees with the specification's matching
table — read as the ordered decision list written in `specSlotTable` — on all
12³ symbol rolls: triple legendary → Jackpot 50, triple rare → Large 10,
other triples → Medium 5, exactly two identical → Small 2, bonus pair
⚡ + 🔥 (when nothing above matched) → Medium 8, otherwise NoWin 0. -/
theorem slot_matching_table :
    ∀ s0 s1 s2 : Sym, evaluateSlotResult s0 s1 s2 = specSlotTable s0 s1 s2 := by
  decide

/-- C7 counterexample: identical lightning draws under storm (×3) and sunny
(×1) weather pay the same 0.05 SOL from a 1 SOL pool — the storm prize is not
3 times the sunny prize. -/
theorem weather_scaling_counterexample :
    c7StormState.currentWeather.multiplier = 3 ∧
    c7SunnyState.currentWeather.multiplier = 1 ∧
    (lightningStrike c7StormState (1/2) 9).pendingRewards.map PendingReward.amount = [1/20] ∧
    (lightningStrike c7SunnyState (1/2) 9).pendingRewards.map PendingReward.amount = [1/20] ∧
    ¬ ((1:ℚ)/20 = 3 * ((1:ℚ)/20)) := by
  refine ⟨rfl, rfl, ?_, ?_, by norm_num⟩ <;>
    norm_num [lightningStrike, c7StormState, c7SunnyState, changeWeather, updateHolders,
      setActualClaimedAmount, initialState, daveHolder, selectWeightedWinner, totalTickets,
      selectLoop, createPendingReward, weatherMultiplierOf, weatherDurationOf]

/-- C7 (amended): the weather homomorphism holds for scheduled draws —
`calculatePrize` under multiplier 3 is exactly 3 times its value under
multiplier 1, all else equal — while a lightning strike is completely
independent of the weather field: changing only the weather commutes with the
whole operation. -/
theorem weather_scaling_amended :
    (∀ pool ty m, calculatePrize pool 3 ty m = 3 * calculatePrize pool 1 ty m) ∧
    (∀ st w r now, lightningStrike { st with currentWeather := w } r now =
        { lightningStrike st r now with currentWeather := w }) := by
  constructor
  · intro pool ty m
    cases ty <;> simp [calculatePrize] <;> ring
  · intro st w r now
    unfold lightningStrike
    dsimp only
    split_ifs with h1 h2 h3 h4 hp
    · rfl
    · rfl
    · rfl
    · rfl
    · cases selectWeightedWinner st.holders r <;> rfl
    · cases selectWeightedWinner st.holders r <;> rfl

theorem totalTickets_cons (h : Holder) (rest : List Holder) :
    totalTickets (h :: rest) = h.tickets + totalTickets rest := by
  simp [totalTickets]

theorem selectLoop_mem (hs : List Holder) (r : ℚ) (h0 : 0 ≤ r)
    (hlt : r < (totalTickets hs : ℚ)) :
    ∃ w, selectLoop r hs = Option.some w ∧ w ∈ hs.map Holder.wallet := by
  induction hs generalizing r with
  | nil =>
    simp [totalTickets] at hlt
    linarith
  | cons h rest ih =>
    unfold selectLoop
    by_cases hle : r - (h.tickets : ℚ) ≤ 0
    · exact ⟨h.wallet, by rw [if_pos hle], by simp⟩
    · push_neg at hle
      have h0' : 0 ≤ r - (h.tickets : ℚ) := le_of_lt hle
      have hlt' : r - (h.tickets : ℚ) < (totalTickets rest : ℚ) := by
        rw [totalTickets_cons] at hlt
        push_cast at hlt
        linarith
      obtain ⟨w, hw, hmem⟩ := ih _ h0' hlt'
      refine ⟨w, ?_, by simp [hmem]⟩
      rw [if_neg (not_le.mpr hle)]
      exact hw

/-- C8: for a non-empty holder map in which every holder has at least one
ticket, `selectWeightedWinner` returns the wallet of some holder in the map
for every random point in `[0, totalTickets)` — the fall-through null after
the loop is unreachable — and when the ticket total is zero it returns null. -/
theorem weighted_winner_selection (hs : List Holder) (r : ℚ) :
    ((hs ≠ [] ∧ (∀ h ∈ hs, 1 ≤ h.tickets) ∧ 0 ≤ r ∧ r < (totalTickets hs : ℚ)) →
      ∃ w, selectWeightedWinner hs r = Option.some w ∧ w ∈ hs.map Holder.wallet) ∧
    (totalTickets hs = 0 → selectWeightedWinner hs r = Option.none) := by
  constructor
  · rintro ⟨hne, hti, h0, hlt⟩
    have htot : totalTickets hs ≠ 0 := by
      intro hz
      rw [hz] at hlt
      push_cast at hlt
      linarith
    unfold selectWeightedWinner
    rw [if_neg htot]
    exact selectLoop_mem hs r h0 hlt
  · intro hz
    simp [selectWeightedWinner, hz]

/-- C8 witness: on the two-holder map (5 and 1 tickets) the point 5.5 of
`[0, 6)` selects a wallet present in the map. -/
theorem weighted_winner_selection_witness :
    ∃ w, selectWeightedWinner c8DemoHolders (11/2) = Option.some w ∧
      w ∈ c8DemoHolders.map Holder.wallet :=
  (weighted_winner_selection c8DemoHolders (11/2)).1
    ⟨by simp [c8DemoHolders], by decide, by norm_num, by norm_num [totalTickets, c8DemoHolders]⟩

/-- C9: `updateHolders` assigns every stored holder exactly
`max(1, floor(balance / 1000))` tickets — hence at least one ticket whenever
the balance is positive — and the resulting holder set is a pure function of
the supplied snapshot, independent of the previous state. -/
theorem ticket_allocation :
    (∀ st hs h, h ∈ (updateHolders st hs).holders →
        h.tickets = max 1 ⌊h.balance / 1000⌋ ∧ (0 < h.balance → 1 ≤ h.tickets)) ∧
    (∀ st1 st2 hs, (updateHolders st1 hs).holders = (updateHolders st2 hs).holders) := by
  constructor
  · intro st hs h hmem
    simp only [updateHolders, List.mem_map] at hmem
    obtain ⟨h0, hmem0, rfl⟩ := hmem
    exact ⟨rfl, fun _ => le_max_left 1 _⟩
  · intro st1 st2 hs
    simp [updateHolders]

/-- C9 witness: the 5000-token holder stored by `updateHolders` carries
`max(1, floor(5000 / 1000)) = 5` tickets. -/
theorem ticket_allocation_witness :
    ({ wallet := "carol", balance := 5000, holdDuration := 0, tickets := 5 } : Holder).tickets =
        max 1 ⌊({ wallet := "carol", balance := 5000, holdDuration := 0, tickets := 5 } : Holder).balance / 1000⌋ ∧
      (0 < ({ wallet := "carol", balance := 5000, holdDuration := 0, tickets := 5 } : Holder).balance →
        1 ≤ ({ wallet := "carol", balance := 5000, holdDuration := 0, tickets := 5 } : Holder).tickets) :=
  ticket_allocation.1 initialState c9DemoList _
    (by norm_num [updateHolders, c9DemoList])

/-- C10: when no ledger entry both matches the given reward id and is in
pending status — the id is absent, or present only on non-pending rewards —
`confirmRewardTransaction` and `failRewardTransaction` return false and leave
the entire state (every reward's status, amount and txRef, and all aggregate
totals) unchanged. -/
theorem confirm_fail_idempotent (st : LotteryState) (id : ℕ × String) (tx err : String)
    (h : ∀ r ∈ st.pendingRewards, rewardId r = id → r.status ≠ RewardStatus.pending) :
    confirmRewardTransaction st id tx = (false, st) ∧
    failRewardTransaction st id err = (false, st) := by
  have hnone : ∀ f, updateFirst st.pendingRewards
      (fun r => decide (rewardId r = id ∧ r.status = RewardStatus.pending)) f = Option.none := by
    intro f
    apply updateFirst_eq_none
    intro r hr
    simp only [decide_eq_false_iff_not, not_and]
    exact fun hid => h r hr hid
  constructor
  · unfold confirmRewardTransaction
    rw [hnone]
  · unfold failRewardTransaction
    rw [hnone]

/-- C10 witness: confirming or failing the id of an already-confirmed reward
returns false and changes nothing. -/
theorem confirm_fail_idempotent_witness :
    confirmRewardTransaction c10State (42, "alicewal") "tx1" = (false, c10State) ∧
    failRewardTransaction c10State (42, "alicewal") "boom" = (false, c10State) :=
  confirm_fail_idempotent c10State (42, "alicewal") "tx1" "boom"
    (by
      intro r hr hid
      simp only [c10State, initialState, List.mem_singleton] at hr
      rw [hr]
      simp)

end SlotStorm
